import Mathlib

/-!
Shallow embedding of the swift-backtrace build glue:
  * src/tools/swift-backtrace/build-script-helper.py
  * src/utils/swift_build_support/swift_build_support/products/swiftbacktrace.py

Pure string manipulation (os.path.join, os.path.normpath, argument-vector
assembly) is translated to Lean functions.  The side effects of main()
(subprocess.call, subprocess.check_output, os.makedirs, shutil.copyfile)
are modelled with an explicit environment (their outcomes) and an event
trace (the effects performed, in order).
-/

/-- str.startswith, implemented structurally on the character list so the
kernel can evaluate it. -/
def strStartsWith (s p : String) : Bool :=
  p.data.isPrefixOf s.data

/-- str.endswith, implemented structurally on the character list. -/
def strEndsWith (s p : String) : Bool :=
  p.data.reverse.isPrefixOf s.data.reverse

/-- str.strip(): drop whitespace from both ends, structurally. -/
def strTrim (s : String) : String :=
  ⟨((s.data.dropWhile Char.isWhitespace).reverse.dropWhile
      Char.isWhitespace).reverse⟩

/-- str.split(sep) for the single-character separator slash, on the
character list: every slash opens a new (possibly empty) field. -/
def splitOnSlash : List Char → List (List Char)
  | [] => [[]]
  | c :: rest =>
    match splitOnSlash rest with
    | [] => [[c]]
    | s :: ss => if c = '/' then [] :: s :: ss else (c :: s) :: ss

/-- path.split('/') as used by posixpath.normpath. -/
def strSplitSlash (s : String) : List String :=
  (splitOnSlash s.data).map String.mk

/-- posixpath.join for two components: if the second is absolute it wins;
otherwise the pieces are glued with a single separator. -/
def pathJoin (a b : String) : String :=
  if strStartsWith b "/" then b
  else if a = "" ∨ strEndsWith a "/" then a ++ b
  else a ++ "/" ++ b

/-- os.path.join(a, b1, b2, ...): left fold of the two-argument join. -/
def joinList (a : String) (bs : List String) : String :=
  bs.foldl pathJoin a

/-- The component loop of posixpath.normpath: drop empty and "." components,
let ".." cancel a previous real component except at the root. -/
def normLoop (hasRoot : Bool) (acc : List String) : List String → List String
  | [] => acc
  | c :: rest =>
    if c = "" ∨ c = "." then
      normLoop hasRoot acc rest
    else if c ≠ ".." ∨ (hasRoot = false ∧ acc = []) ∨ acc.getLast? = some ".." then
      normLoop hasRoot (acc ++ [c]) rest
    else if acc ≠ [] then
      normLoop hasRoot acc.dropLast rest
    else
      normLoop hasRoot acc rest

/-- posixpath.normpath: collapse separators, "." and ".." lexically,
preserving one leading slash (or exactly two, POSIX-style). -/
def normpath (path : String) : String :=
  if path = "" then "." else
  let initialSlashes : Nat :=
    if strStartsWith path "/" then
      if strStartsWith path "//" ∧ ¬ strStartsWith path "///" then 2 else 1
    else 0
  let comps := normLoop (initialSlashes ≠ 0) [] (strSplitSlash path)
  let joined := String.join (List.replicate initialSlashes "/") ++
    String.intercalate "/" comps
  if joined = "" then "." else joined

/-- posixpath.abspath relative to a current working directory. -/
def abspath (cwd path : String) : String :=
  if strStartsWith path "/" then normpath path
  else normpath (pathJoin cwd path)

/-- The parsed command-line arguments of build-script-helper.py.
argparse guarantees package_path, build_path, toolchain are present and
configuration is one of debug or release (default release); install_path
may be absent.  The accepted but unused option for an install destination
override is omitted because no code reads it. -/
structure Config where
  verbose : Bool
  package_path : String
  build_path : String
  toolchain : String
  install_path : Option String
  configuration : String
deriving Repr, DecidableEq

/-- swift_path = os.path.join(args.toolchain, 'bin', 'swift'). -/
def swift_path (cfg : Config) : String :=
  joinList cfg.toolchain ["bin", "swift"]

/-- get_args_for_swift from build-script-helper.py: the assembled argument
vector for one toolchain invocation. -/
def get_args_for_swift (cfg : Config) (action product : String)
    (extra_args : List String) : List String :=
  let all_args := [swift_path cfg, action,
    "--package-path", cfg.package_path,
    "--scratch-path", cfg.build_path,
    "--configuration", cfg.configuration]
  let all_args := all_args ++ extra_args
  let all_args := all_args ++
    (if action = "test" then ["--test-product", product]
     else ["--product", product])
  if cfg.verbose then all_args ++ ["--verbose"] else all_args

/-- One observable side effect of main(): a subprocess.call, a
subprocess.check_output, an os.makedirs, or a shutil.copyfile. -/
inductive Event where
  | call (argv : List String)
  | checkOut (argv : List String)
  | makedirs (path : String)
  | copyfile (src dst : String)
deriving Repr, DecidableEq

/-- The environment the script runs in: the exit code subprocess.call would
return for an argument vector, the result of subprocess.check_output (an
error code when the child exits non-zero, otherwise its stripped-to-be
stdout text), and which directories and files exist. -/
structure Env where
  callExit : List String → Int
  checkOutputRes : List String → Except Int String
  dirExists : String → Bool
  fileExists : String → Bool

/-- How the Python process terminates: a normal return from main (the
interpreter exits 0, since main returns None) or an uncaught exception
(the interpreter exits 1). -/
inductive Outcome where
  | exit (code : Int)
  | exception (name : String)
deriving Repr, DecidableEq

/-- The process exit status an Outcome produces: uncaught exceptions make
the interpreter exit with status 1. -/
def pythonExitCode : Outcome → Int
  | .exit c => c
  | .exception _ => 1

/-- invoke_swift from build-script-helper.py: performs one subprocess.call
with the assembled vector.  The call's return value (the child's exit
code) is discarded by the source — the Python function returns None — so
the model records only the effect. -/
def invoke_swift (cfg : Config) (action product : String)
    (extra_args : List String := []) : Event :=
  .call (get_args_for_swift cfg action product extra_args)

/-- get_binary_path from build-script-helper.py: runs the build action with
the show-bin-path flag through subprocess.check_output.  A non-zero child
exit raises CalledProcessError (the error case); otherwise the stripped
stdout is joined with the fixed binary name. -/
def get_binary_path (env : Env) (cfg : Config) (product : String) :
    Except Int String :=
  let cmd := get_args_for_swift cfg "build" product ["--show-bin-path"]
  match env.checkOutputRes cmd with
  | .error c => .error c
  | .ok out => .ok (pathJoin (strTrim out) "swift-backtrace")

/-- main() of build-script-helper.py after argument parsing: the action
dispatch.  Returns how the process terminates together with the ordered
trace of side effects it performed.  An unrecognized action string matches
no branch of the if/elif chain, so main falls through and returns None. -/
def runMain (env : Env) (cfg : Config) (action : String) :
    Outcome × List Event :=
  if action = "build" then
    (.exit 0, [invoke_swift cfg "build" "swift-backtrace"])
  else if action = "test" then
    (.exit 0, [invoke_swift cfg "test" "swift-backtrace"])
  else if action = "install" then
    let buildEv := invoke_swift cfg "build" "swift-backtrace"
    match cfg.install_path with
    | none => (.exception "TypeError", [buildEv])
    | some ip =>
      if env.dirExists ip then
        (.exception "FileExistsError", [buildEv])
      else
        let qcmd := get_args_for_swift cfg "build" "swift-backtrace"
          ["--show-bin-path"]
        match env.checkOutputRes qcmd with
        | .error _ =>
          (.exception "CalledProcessError", [buildEv, .makedirs ip, .checkOut qcmd])
        | .ok out =>
          let built := pathJoin (strTrim out) "swift-backtrace"
          if env.fileExists built then
            (.exit 0, [buildEv, .makedirs ip, .checkOut qcmd,
              .copyfile built (pathJoin ip "swift-backtrace")])
          else
            (.exception "FileNotFoundError", [buildEv, .makedirs ip, .checkOut qcmd])
  else
    (.exit 0, [])

/-- Identifiers of the upstream products named by
SwiftBacktrace.get_dependencies in swiftbacktrace.py. -/
inductive ProductId where
  | cmark | llvm | libcxx | libicu | swift | libdispatch
  | foundation | xctest | llbuild | swiftpm
deriving Repr, DecidableEq

/-- SwiftBacktrace.get_dependencies: the hard-coded upstream product list.
The Python classmethod takes no host target and no configuration, so the
returned sequence cannot depend on either. -/
def get_dependencies : List ProductId :=
  [.cmark, .llvm, .libcxx, .libicu, .swift, .libdispatch,
   .foundation, .xctest, .llbuild, .swiftpm]

/-- The orchestrator options SwiftBacktrace reads from self.args. -/
structure OrchArgs where
  verbose_build : Bool
  test_swift_backtrace : Bool
  install_swift_backtrace : Bool
deriving Repr, DecidableEq

/-- The state of a SwiftBacktrace product-descriptor instance.
source_dir, build_dir and args come from the orchestrator;
install_toolchain_path and native_toolchain_path are lookups (defined in
the framework outside this repository fragment) kept opaque as function
fields; cwd is the working directory os.path.abspath resolves against. -/
structure SwiftBacktrace where
  source_dir : String
  build_dir : String
  is_release : Bool
  cwd : String
  install_toolchain_path : String → String
  native_toolchain_path : String → String
  args : OrchArgs

/-- SwiftBacktrace.run_build_script_helper: the helper command handed to
shell.call, as a function of the action verb and host target. -/
def SwiftBacktrace.run_build_script_helper (self : SwiftBacktrace)
    (action host_target : String) : List String :=
  let configuration := if self.is_release then "release" else "debug"
  let package_path := abspath self.cwd
    (joinList self.source_dir ["..", "swift", "tools", "swift-backtrace"])
  let script_path := pathJoin package_path "build-script-helper.py"
  let install_toolchain_path := self.install_toolchain_path host_target
  let install_path := joinList install_toolchain_path ["libexec", "swift"]
  let helper_cmd := [script_path, action,
    "--toolchain", self.native_toolchain_path host_target,
    "--configuration", configuration,
    "--build-path", self.build_dir,
    "--package-path", package_path,
    "--install-path", install_path]
  if self.args.verbose_build then helper_cmd ++ ["--verbose"] else helper_cmd

/-- SwiftBacktrace.should_build: always true. -/
def SwiftBacktrace.should_build (_self : SwiftBacktrace)
    (_host_target : String) : Bool := true

/-- SwiftBacktrace.build: delegates to run_build_script_helper with the
build verb; the value is the command passed to shell.call. -/
def SwiftBacktrace.build (self : SwiftBacktrace) (host_target : String) :
    List String :=
  self.run_build_script_helper "build" host_target

/-- SwiftBacktrace.should_test: the orchestrator flag. -/
def SwiftBacktrace.should_test (self : SwiftBacktrace)
    (_host_target : String) : Bool := self.args.test_swift_backtrace

/-- SwiftBacktrace.test: delegates with the test verb. -/
def SwiftBacktrace.test (self : SwiftBacktrace) (host_target : String) :
    List String :=
  self.run_build_script_helper "test" host_target

/-- SwiftBacktrace.should_install: the orchestrator flag. -/
def SwiftBacktrace.should_install (self : SwiftBacktrace)
    (_host_target : String) : Bool := self.args.install_swift_backtrace

/-- SwiftBacktrace.install: delegates with the install verb. -/
def SwiftBacktrace.install (self : SwiftBacktrace) (host_target : String) :
    List String :=
  self.run_build_script_helper "install" host_target

/-! Concrete fixtures used by counterexamples and witnesses. -/

/-- The configuration of the spec's build scenario. -/
def scenarioCfg : Config :=
  { verbose := false, package_path := "/src/pkg", build_path := "/tmp/out",
    toolchain := "/opt/toolchain", install_path := none,
    configuration := "release" }

/-- An environment whose toolchain subprocess exits 1. -/
def envC1 : Env :=
  { callExit := fun _ => 1, checkOutputRes := fun _ => .ok "/bin",
    dirExists := fun _ => false, fileExists := fun _ => true }

/-- An environment whose binary-path query succeeds with empty output. -/
def envC3 : Env :=
  { callExit := fun _ => 0, checkOutputRes := fun _ => .ok "",
    dirExists := fun _ => false, fileExists := fun _ => true }

/-- An environment whose binary-path query subprocess exits 2. -/
def envC3b : Env :=
  { callExit := fun _ => 0, checkOutputRes := fun _ => .error 2,
    dirExists := fun _ => false, fileExists := fun _ => true }

/-- C4: for the build action in the spec's scenario configuration, the
assembled argument vector is exactly the ten-element vector listed in the
spec, and the build run performs exactly one subprocess call with it. -/
theorem C4_build_scenario_vector :
    get_args_for_swift scenarioCfg "build" "swift-backtrace" [] =
      ["/opt/toolchain/bin/swift", "build", "--package-path", "/src/pkg",
       "--scratch-path", "/tmp/out", "--configuration", "release",
       "--product", "swift-backtrace"] ∧
    ∀ env : Env, (runMain env scenarioCfg "build").2 =
      [.call ["/opt/toolchain/bin/swift", "build", "--package-path", "/src/pkg",
       "--scratch-path", "/tmp/out", "--configuration", "release",
       "--product", "swift-backtrace"]] := by
  refine ⟨rfl, fun env => rfl⟩

/-- C6: get_dependencies is a fixed 10-element sequence of distinct
upstream product identifiers, equal to the hard-coded list; the Python
classmethod takes no host target and no configuration, so the value is
the same for all of them. -/
theorem C6_dependencies_fixed :
    get_dependencies.length = 10 ∧ get_dependencies.Nodup ∧
    get_dependencies = [.cmark, .llvm, .libcxx, .libicu, .swift, .libdispatch,
      .foundation, .xctest, .llbuild, .swiftpm] := by
  refine ⟨rfl, by decide, rfl⟩

/-- C1 counterexample: in an environment where the toolchain subprocess
exits 1, the standalone tool still terminates with exit status 0 for the
build action, so the tool's exit code does not equal the child's. -/
theorem C1_counterexample :
    pythonExitCode (runMain envC1 scenarioCfg "build").1 = 0 ∧
    envC1.callExit (get_args_for_swift scenarioCfg "build" "swift-backtrace" []) = 1 ∧
    pythonExitCode (runMain envC1 scenarioCfg "build").1 ≠
      envC1.callExit (get_args_for_swift scenarioCfg "build" "swift-backtrace" []) := by
  refine ⟨rfl, rfl, by decide⟩

/-- C1 amended: invoke runs the assembled argument vector as a child
process, but the child's exit code is discarded (invoke_swift ignores the
return value of the call); for the build and test actions the standalone
tool terminates with exit status 0 regardless of the child's exit code. -/
theorem C1_exit_code_discarded (env : Env) (cfg : Config) (a : String)
    (h : a = "build" ∨ a = "test") :
    (runMain env cfg a).1 = .exit 0 ∧
    (runMain env cfg a).2 = [.call (get_args_for_swift cfg a "swift-backtrace" [])] := by
  rcases h with rfl | rfl <;> exact ⟨rfl, rfl⟩

/-- Witness for C1 amended at the build action. -/
theorem C1_exit_code_discarded_witness :
    (runMain envC1 scenarioCfg "build").1 = .exit 0 ∧
    (runMain envC1 scenarioCfg "build").2 =
      [.call (get_args_for_swift scenarioCfg "build" "swift-backtrace" [])] :=
  C1_exit_code_discarded envC1 scenarioCfg "build" (Or.inl rfl)

/-- C3 counterexample: when the binary-path query succeeds with empty
output, get_binary_path does not fail — it returns the relative path
"swift-backtrace" (the join of the empty directory with the binary name). -/
theorem C3_counterexample :
    envC3.checkOutputRes
      (get_args_for_swift scenarioCfg "build" "swift-backtrace" ["--show-bin-path"]) = .ok "" ∧
    get_binary_path envC3 scenarioCfg "swift-backtrace" = .ok "swift-backtrace" := by
  refine ⟨rfl, rfl⟩

/-- C3 amended: get_binary_path fails exactly when the query subprocess
fails, propagating its error; on success it always returns a path, the
stripped query output joined with the binary name — in particular empty
output yields the path "swift-backtrace" rather than an error. -/
theorem C3_binary_path_error_propagation (env : Env) (cfg : Config)
    (product : String) :
    (∀ c : Int, env.checkOutputRes
        (get_args_for_swift cfg "build" product ["--show-bin-path"]) = .error c →
      get_binary_path env cfg product = .error c) ∧
    (∀ s : String, env.checkOutputRes
        (get_args_for_swift cfg "build" product ["--show-bin-path"]) = .ok s →
      get_binary_path env cfg product = .ok (pathJoin (strTrim s) "swift-backtrace")) := by
  constructor <;> intro x h <;> simp [get_binary_path, h]

/-- Witness for C3 amended: a failing query propagates its error code. -/
theorem C3_binary_path_error_propagation_witness :
    get_binary_path envC3b scenarioCfg "swift-backtrace" = .error 2 :=
  (C3_binary_path_error_propagation envC3b scenarioCfg "swift-backtrace").1 2 rfl

/-- An environment in which every directory already exists. -/
def envC7 : Env :=
  { callExit := fun _ => 0, checkOutputRes := fun _ => .ok "/b",
    dirExists := fun _ => true, fileExists := fun _ => true }

/-- An install configuration whose destination directory will exist. -/
def cfgC7 : Config :=
  { verbose := false, package_path := "/p", build_path := "/b",
    toolchain := "/t", install_path := some "/usr/libexec/swift",
    configuration := "release" }

/-- An environment in which exactly the directory /dst exists. -/
def envC9 : Env :=
  { callExit := fun _ => 3, checkOutputRes := fun _ => .ok "/out",
    dirExists := fun p => p == "/dst", fileExists := fun _ => true }

/-- A verbose debug install configuration targeting /dst. -/
def cfgC9 : Config :=
  { verbose := true, package_path := "/pkg9", build_path := "/bld9",
    toolchain := "/tc9", install_path := some "/dst",
    configuration := "debug" }

/-- An arbitrary environment for the unknown-action claim. -/
def envC8 : Env :=
  { callExit := fun _ => 7, checkOutputRes := fun _ => .ok "/q",
    dirExists := fun _ => false, fileExists := fun _ => false }

/-- An arbitrary configuration for the unknown-action claim. -/
def cfgC8 : Config :=
  { verbose := true, package_path := "/pp", build_path := "/bb",
    toolchain := "/tt", install_path := none,
    configuration := "release" }

/-- C7: when the install destination already exists, main raises the
directory-creation conflict (FileExistsError from os.makedirs) and no
file is ever copied into the pre-existing directory. -/
theorem C7_install_dir_conflict (env : Env) (cfg : Config) (ip : String)
    (hip : cfg.install_path = some ip) (hex : env.dirExists ip = true) :
    (runMain env cfg "install").1 = .exception "FileExistsError" ∧
    ∀ src dst, Event.copyfile src dst ∉ (runMain env cfg "install").2 := by
  simp [runMain, invoke_swift, hip, hex]

/-- Witness for C7 at a concrete environment and configuration. -/
theorem C7_install_dir_conflict_witness :
    (runMain envC7 cfgC7 "install").1 = .exception "FileExistsError" ∧
    ∀ src dst, Event.copyfile src dst ∉ (runMain envC7 cfgC7 "install").2 :=
  C7_install_dir_conflict envC7 cfgC7 "/usr/libexec/swift" rfl rfl

/-- C9: install is not atomic on error — with a pre-existing install
directory the effect trace is exactly the one build subprocess call, so
the build ran before the failure and neither the binary-path query nor
the copy was attempted. -/
theorem C9_install_not_atomic (env : Env) (cfg : Config) (ip : String)
    (hip : cfg.install_path = some ip) (hex : env.dirExists ip = true) :
    (runMain env cfg "install").2 =
      [.call (get_args_for_swift cfg "build" "swift-backtrace" [])] ∧
    (runMain env cfg "install").1 = .exception "FileExistsError" := by
  simp [runMain, invoke_swift, hip, hex]

/-- Witness for C9 at a concrete environment and configuration. -/
theorem C9_install_not_atomic_witness :
    (runMain envC9 cfgC9 "install").2 =
      [.call (get_args_for_swift cfgC9 "build" "swift-backtrace" [])] ∧
    (runMain envC9 cfgC9 "install").1 = .exception "FileExistsError" :=
  C9_install_not_atomic envC9 cfgC9 "/dst" rfl rfl

/-- C8: any action string other than build, test and install matches no
branch of the if/elif chain, so main performs no side effect at all and
the process terminates normally with exit status 0. -/
theorem C8_unknown_action_noop (env : Env) (cfg : Config) (a : String)
    (h1 : a ≠ "build") (h2 : a ≠ "test") (h3 : a ≠ "install") :
    runMain env cfg a = (.exit 0, []) := by
  simp [runMain, h1, h2, h3]

/-- Witness for C8 at the concrete unknown action "clean". -/
theorem C8_unknown_action_noop_witness :
    runMain envC8 cfgC8 "clean" = (.exit 0, []) :=
  C8_unknown_action_noop envC8 cfgC8 "clean" (by decide) (by decide) (by decide)

/-- C10: for any descriptor state and host target, the build, test and
install methods hand shell.call the identical helper command up to the
action verb at index 1 (overwriting the verb of the build command yields
exactly the test or install command), and the command always carries the
install-destination flag set to installToolchainPath/libexec/swift, even
for build and test. -/
theorem C10_helper_cmd_uniform (self : SwiftBacktrace) (host : String) :
    ((self.build host).set 1 "test" = self.test host) ∧
    ((self.build host).set 1 "install" = self.install host) ∧
    (self.build host)[1]? = some "build" ∧
    (self.test host)[1]? = some "test" ∧
    (self.install host)[1]? = some "install" ∧
    (self.build host)[10]? = some "--install-path" ∧
    (self.build host)[11]? =
      some (joinList (self.install_toolchain_path host) ["libexec", "swift"]) ∧
    (self.test host)[10]? = some "--install-path" ∧
    (self.install host)[10]? = some "--install-path" := by
  cases h : self.args.verbose_build <;>
    simp [SwiftBacktrace.build, SwiftBacktrace.test, SwiftBacktrace.install,
      SwiftBacktrace.run_build_script_helper, h]

/-- The three core flags the invocation builder always emits. -/
def coreFlags : List String :=
  ["--package-path", "--scratch-path", "--configuration"]

set_option maxHeartbeats 2000000 in
/-- Each core flag occurs exactly once in the assembled vector, provided no
configured string collides with a flag name. -/
lemma count_once (cfg : Config) (a product : String) (extra : List String)
    (ha : a = "build" ∨ a = "test" ∨ a = "install")
    (hc : cfg.configuration = "debug" ∨ cfg.configuration = "release")
    (f : String)
    (hf : f = "--package-path" ∨ f = "--scratch-path" ∨ f = "--configuration")
    (hsp : swift_path cfg ≠ f) (hpkg : cfg.package_path ≠ f)
    (hbld : cfg.build_path ≠ f) (hprod : product ≠ f)
    (hextra : extra.count f = 0) :
    (get_args_for_swift cfg a product extra).count f = 1 := by
  rcases ha with rfl | rfl | rfl <;> rcases hc with hc | hc <;>
    rcases hf with rfl | rfl | rfl <;> cases hv : cfg.verbose <;>
    simp [get_args_for_swift, hv, hc, List.count_append, List.count_cons,
      hsp, hpkg, hbld, hprod, hextra]

/-- The ordering skeleton of the assembled vector: the three core flags
followed by the product flag and the product name form a subsequence. -/
lemma core_sublist (sp a pkg bld conf pf prod : String)
    (extra tail : List String) :
    List.Sublist ["--package-path", "--scratch-path", "--configuration", pf, prod]
      (sp :: a :: "--package-path" :: pkg :: "--scratch-path" :: bld ::
        "--configuration" :: conf :: (extra ++ ([pf, prod] ++ tail))) := by
  have h1 : List.Sublist ["--package-path", "--scratch-path", "--configuration"]
      [sp, a, "--package-path", pkg, "--scratch-path", bld,
        "--configuration", conf] :=
    .cons _ (.cons _ (.cons₂ _ (.cons _ (.cons₂ _ (.cons _ (.cons₂ _
      (List.nil_sublist _)))))))
  have h2 : List.Sublist [pf, prod] (extra ++ ([pf, prod] ++ tail)) :=
    (List.sublist_append_left [pf, prod] tail).trans
      (List.sublist_append_right extra _)
  simpa using h1.append h2

/-- The core flags, the action-appropriate product flag and the product
name appear in the assembled vector in that relative order. -/
lemma args_sublist (cfg : Config) (a product : String) (extra : List String) :
    List.Sublist ["--package-path", "--scratch-path", "--configuration",
      (if a = "test" then "--test-product" else "--product"), product]
      (get_args_for_swift cfg a product extra) := by
  by_cases hat : a = "test" <;> cases hv : cfg.verbose <;>
    simp only [get_args_for_swift, hat, if_true, if_false, hv,
      List.cons_append, List.nil_append, List.append_assoc, ite_true,
      ite_false, Bool.false_eq_true] <;>
    first
      | exact core_sublist _ _ _ _ _ _ _ extra ["--verbose"]
      | exact core_sublist _ _ _ _ _ _ _ extra []

/-- C2: for every action, product and valid configuration (flag strings do
not collide with configured values), the assembled vector contains each of
the three core flags exactly once, in order, followed by the test-product
flag for the test action and the product flag otherwise, then the product
name. -/
theorem C2_core_flags_once_ordered (cfg : Config) (a product : String)
    (extra : List String)
    (ha : a = "build" ∨ a = "test" ∨ a = "install")
    (hconf : cfg.configuration = "debug" ∨ cfg.configuration = "release")
    (hsp : swift_path cfg ∉ coreFlags) (hpkg : cfg.package_path ∉ coreFlags)
    (hbld : cfg.build_path ∉ coreFlags) (hprod : product ∉ coreFlags)
    (hextra : ∀ x ∈ extra, x ∉ coreFlags) :
    ((get_args_for_swift cfg a product extra).count "--package-path" = 1 ∧
     (get_args_for_swift cfg a product extra).count "--scratch-path" = 1 ∧
     (get_args_for_swift cfg a product extra).count "--configuration" = 1) ∧
    List.Sublist ["--package-path", "--scratch-path", "--configuration",
      (if a = "test" then "--test-product" else "--product"), product]
      (get_args_for_swift cfg a product extra) := by
  have d1 : ("--package-path" : String) ∈ coreFlags := by decide
  have d2 : ("--scratch-path" : String) ∈ coreFlags := by decide
  have d3 : ("--configuration" : String) ∈ coreFlags := by decide
  refine ⟨⟨?_, ?_, ?_⟩, args_sublist cfg a product extra⟩
  · exact count_once cfg a product extra ha hconf _ (Or.inl rfl)
      (fun h => hsp (by rw [h]; exact d1)) (fun h => hpkg (by rw [h]; exact d1))
      (fun h => hbld (by rw [h]; exact d1)) (fun h => hprod (by rw [h]; exact d1))
      (List.count_eq_zero.mpr (fun hm => hextra _ hm d1))
  · exact count_once cfg a product extra ha hconf _ (Or.inr (Or.inl rfl))
      (fun h => hsp (by rw [h]; exact d2)) (fun h => hpkg (by rw [h]; exact d2))
      (fun h => hbld (by rw [h]; exact d2)) (fun h => hprod (by rw [h]; exact d2))
      (List.count_eq_zero.mpr (fun hm => hextra _ hm d2))
  · exact count_once cfg a product extra ha hconf _ (Or.inr (Or.inr rfl))
      (fun h => hsp (by rw [h]; exact d3)) (fun h => hpkg (by rw [h]; exact d3))
      (fun h => hbld (by rw [h]; exact d3)) (fun h => hprod (by rw [h]; exact d3))
      (List.count_eq_zero.mpr (fun hm => hextra _ hm d3))

/-- The last element of a vector that ends in a three-element literal
tail. -/
lemma getLast_cons_append_three (c : String) (l : List String)
    (x y z : String) :
    (c :: (l ++ [x, y, z])).getLast? = some z := by
  rw [show c :: (l ++ [x, y, z]) = (c :: l) ++ [x, y, z] by simp]
  rw [List.getLast?_append_of_ne_nil _ (by simp)]
  rfl

set_option maxHeartbeats 1000000 in
/-- C5: the verbosity flag is a member of the assembled vector exactly when
the configuration's verbose field is true, and when present it is the last
element of the vector (no configured string collides with the flag). -/
theorem C5_verbose_iff (cfg : Config) (a product : String) (extra : List String)
    (hextra : "--verbose" ∉ extra)
    (hsp : swift_path cfg ≠ "--verbose") (ha : a ≠ "--verbose")
    (hpkg : cfg.package_path ≠ "--verbose") (hbld : cfg.build_path ≠ "--verbose")
    (hconf : cfg.configuration ≠ "--verbose") (hprod : product ≠ "--verbose") :
    ("--verbose" ∈ get_args_for_swift cfg a product extra ↔ cfg.verbose = true) ∧
    (cfg.verbose = true →
      (get_args_for_swift cfg a product extra).getLast? = some "--verbose") := by
  have hsp' : ¬(("--verbose" : String) = swift_path cfg) := fun h => hsp h.symm
  have ha' : ¬(("--verbose" : String) = a) := fun h => ha h.symm
  have hpkg' : ¬(("--verbose" : String) = cfg.package_path) := fun h => hpkg h.symm
  have hbld' : ¬(("--verbose" : String) = cfg.build_path) := fun h => hbld h.symm
  have hconf' : ¬(("--verbose" : String) = cfg.configuration) := fun h => hconf h.symm
  have hprod' : ¬(("--verbose" : String) = product) := fun h => hprod h.symm
  cases hv : cfg.verbose <;> by_cases hat : a = "test" <;>
    simp [get_args_for_swift, hv, hat,
      hsp', ha', hpkg', hbld', hconf', hprod', hextra] <;>
    exact getLast_cons_append_three _ _ _ _ _

/-- A verbose configuration for the verbosity-flag witness. -/
def cfgC5 : Config :=
  { verbose := true, package_path := "/p5", build_path := "/b5",
    toolchain := "/t5", install_path := none, configuration := "release" }

/-- Witness for C5 at a concrete verbose configuration. -/
theorem C5_verbose_iff_witness :
    ("--verbose" ∈ get_args_for_swift cfgC5 "build" "swift-backtrace" [] ↔
      cfgC5.verbose = true) ∧
    (cfgC5.verbose = true →
      (get_args_for_swift cfgC5 "build" "swift-backtrace" []).getLast? =
        some "--verbose") :=
  C5_verbose_iff cfgC5 "build" "swift-backtrace" [] (by decide) (by decide)
    (by decide) (by decide) (by decide) (by decide) (by decide)

/-- Witness for C2 at the scenario configuration and the test action. -/
theorem C2_core_flags_once_ordered_witness :
    (((get_args_for_swift scenarioCfg "test" "swift-backtrace" []).count
        "--package-path" = 1 ∧
      (get_args_for_swift scenarioCfg "test" "swift-backtrace" []).count
        "--scratch-path" = 1 ∧
      (get_args_for_swift scenarioCfg "test" "swift-backtrace" []).count
        "--configuration" = 1) ∧
     List.Sublist ["--package-path", "--scratch-path", "--configuration",
       (if ("test" : String) = "test" then "--test-product" else "--product"),
       "swift-backtrace"]
       (get_args_for_swift scenarioCfg "test" "swift-backtrace" [])) :=
  C2_core_flags_once_ordered scenarioCfg "test" "swift-backtrace" []
    (Or.inr (Or.inl rfl)) (Or.inr rfl) (by decide) (by decide) (by decide)
    (by decide) (by decide)
